import Mathlib

/-!
Shallow embedding of the document validation core of the repository
(`src/utils/validator.py`) and proofs about the claims on its behaviour.

The Python code works on loosely typed dictionaries; the embedding keeps the
same field names and the same control flow, modelling:
  * Python dicts with insertion order as association lists;
  * loosely typed metadata string values (absent key / `None` / string) as the
    three-valued `MetaVal`, since `None` values behave differently from absent
    keys (`dict.get(k, default)` returns `None`, not the default, when the key
    is present with value `None`);
  * an `AttributeError` raised on `None.lower()` as an `Option.none` result;
  * `datetime.now()` as an explicit calendar-date parameter (the parsed
    document dates carry a zero time-of-day, so `date_obj > datetime.now()`
    is equivalent to a strict comparison of calendar dates);
  * `difflib.SequenceMatcher(None, a, b).ratio()` for short strings (fewer
    than 200 characters, where the autojunk heuristic is inert) by the
    Ratcliff/Obershelp recursive longest-matching-block computation, and the
    float comparison `ratio < 0.7` by the exact integer comparison
    `20 * M < 7 * (|a| + |b|)` (both sides of the Python comparison round the
    same reals, so the comparisons agree on all rationals `2M/T`);
  * the concrete regular expressions of the source by direct functional
    translations of their leftmost-match / `findall` semantics.
-/

namespace DocCheck

/-- Severity of an issue: the source only ever writes `'critical'` or
`'warning'` into the `severity` field. -/
inductive Severity
  | critical
  | warning
deriving DecidableEq, Repr

/-- Category / overall status strings used by the validator. -/
inductive Status
  | Processing
  | Passed
  | Warning
  | Failed
deriving DecidableEq, Repr

/-- One issue dict as appended by the validators.  `document` models the
optional `'document'` key, `documents` the `'documents'` key used by the
cross-document name check (empty list = key absent). -/
structure Issue where
  type : String
  description : String
  severity : Severity
  document : Option String := none
  documents : List String := []
deriving DecidableEq, Repr

/-- A category result: the `issues` list and the `status` field of one of the
four per-category dicts. -/
structure CategoryResult where
  issues : List Issue
  status : Status
deriving DecidableEq, Repr

/-- A loosely typed metadata string value: the key can be absent from the
metadata dict, present with Python `None`, or present with a string. -/
inductive MetaVal
  | absent
  | null
  | str (s : String)
deriving DecidableEq, Repr

/-- Python truthiness of `metadata.get(key)`: `None` (for an absent key or a
stored `None`) and the empty string are falsy. -/
def MetaVal.truthy : MetaVal → Bool
  | .str s => !s.isEmpty
  | _ => false

/-- The five boolean format markers produced by the document processor
(`metadata['format_markers']`); a missing dict defaults every marker to
`False` via `format_markers.get(name, False)`. -/
structure FormatMarkers where
  has_header : Bool := false
  has_footer : Bool := false
  has_date : Bool := false
  has_signature : Bool := false
  has_letterhead : Bool := false
deriving DecidableEq, Repr

/-- The type-specific metadata record of one processed document.  `courses`
and `grades` are only ever tested for truthiness, so a stored `None` and an
absent key are modelled like the empty list. -/
structure Metadata where
  format_markers : FormatMarkers := {}
  id_number : MetaVal := .absent
  courses : List String := []
  grades : List String := []
  graduation_year : MetaVal := .absent
  graduation_season : MetaVal := .absent
  status : MetaVal := .absent
  has_signature : Bool := false
deriving DecidableEq, Repr

/-- One processed document: `text`, the `PERSON` list of the `entities` dict
(the only entity category that the validator reads), and the metadata. -/
structure ExtractedDocument where
  text : String := ""
  person_entities : List String := []
  metadata : Metadata := {}
deriving DecidableEq, Repr

/-- The `processed_docs` dict: document type keys to documents, in insertion
order (Python dicts preserve insertion order; keys are unique). -/
abbrev Docs := List (String × ExtractedDocument)

/-- The claimed personal information dict (all values are form strings). -/
structure PersonalData where
  name : String := ""
  dob : String := ""
  citizenship : String := ""
  address : String := ""
  gender : String := ""
deriving DecidableEq, Repr

/-- The claimed academic information dict (all values are form strings). -/
structure AcademicData where
  major : String := ""
  degree_level : String := ""
  university : String := ""
  study_mode : String := ""
  grade : String := ""
  graduation_year : String := ""
  graduation_season : String := ""
deriving DecidableEq, Repr

/-- The dict returned by `validate_documents`. -/
structure ValidationReport where
  personal_validation : CategoryResult
  academic_validation : CategoryResult
  document_authenticity : CategoryResult
  cross_document_consistency : CategoryResult
  overall_status : Status
deriving DecidableEq, Repr

/-! ## String helpers mirroring the Python primitives -/

/-- Does the pattern occur as the first characters of the text? -/
def startsWithChars : List Char → List Char → Bool
  | [], _ => true
  | _ :: _, [] => false
  | c :: cs, d :: ds => c = d && startsWithChars cs ds

/-- Does the pattern occur as a contiguous sublist of the text? -/
def subChars (pat : List Char) : List Char → Bool
  | [] => pat.isEmpty
  | d :: ds => startsWithChars pat (d :: ds) || subChars pat ds

/-- Python `pat in text` for strings (substring containment; the empty
pattern is contained in every string). -/
def strIn (pat text : String) : Bool :=
  subChars pat.toList text.toList

/-- The whitespace characters of Python `str.split()` / `\s`. -/
def isWsChar (c : Char) : Bool :=
  c = ' ' || c = '\t' || c = '\n' || c = '\r' || c = '\x0b' || c = '\x0c'

/-- Accumulator loop behind `pySplitWs`. -/
def wsSplitAux : List Char → List Char → List (List Char)
  | acc, [] => if acc.isEmpty then [] else [acc.reverse]
  | acc, c :: cs =>
    if isWsChar c then
      if acc.isEmpty then wsSplitAux [] cs else acc.reverse :: wsSplitAux [] cs
    else wsSplitAux (c :: acc) cs

/-- Python `str.split()` with no argument: split on runs of whitespace and
drop empty fragments (`''.split() == []`). -/
def pySplitWs (s : String) : List String :=
  (wsSplitAux [] s.toList).map List.asString

/-- Accumulator loop behind `splitCommaNl`. -/
def splitCommaNlAux : List Char → List Char → List String
  | acc, [] => [acc.reverse.asString]
  | acc, c :: cs =>
    if c = ',' ∨ c = '\n' then acc.reverse.asString :: splitCommaNlAux [] cs
    else splitCommaNlAux (c :: acc) cs

/-- Python `re.split(r'[,\n]', s)`: split at every comma or newline, keeping
empty fragments (`re.split` on `''` gives `['']`). -/
def splitCommaNl (s : String) : List String :=
  splitCommaNlAux [] s.toList

/-- Python `str.lower()` on ASCII text (`String.toLower`, implemented over
the character list so that it reduces in the kernel). -/
def lowerStr (s : String) : String :=
  (s.toList.map Char.toLower).asString

/-- Python `str.strip()`: drop leading and trailing whitespace. -/
def trimStr (s : String) : String :=
  ((s.toList.dropWhile isWsChar).reverse.dropWhile isWsChar).reverse.asString

/-- Python `str.capitalize()`: first character uppercased, the rest
lowercased. -/
def pyCapitalize (s : String) : String :=
  match s.toList with
  | [] => ""
  | c :: cs => (c.toUpper :: cs.map Char.toLower).asString

/-- The numeric value of a non-empty all-digit string (`String.toNat?`,
restated so that it reduces in the kernel). -/
def digitsToNat? (s : String) : Option Nat :=
  if !s.toList.isEmpty && s.toList.all Char.isDigit then
    some (s.toList.foldl (fun n c => 10 * n + (c.toNat - 48)) 0)
  else none

/-- Accumulator loop behind `splitOnChar`. -/
def splitOnCharAux (sep : Char) : List Char → List Char → List String
  | acc, [] => [acc.reverse.asString]
  | acc, c :: cs =>
    if c = sep then acc.reverse.asString :: splitOnCharAux sep [] cs
    else splitOnCharAux sep (c :: acc) cs

/-- Python `str.split(sep)` for a one-character separator, keeping empty
fragments. -/
def splitOnChar (sep : Char) (s : String) : List String :=
  splitOnCharAux sep [] s.toList

/-- `metadata.get(key, '').lower()`: an absent key yields the default `''`,
a stored string is lowercased, and a stored `None` raises `AttributeError`
(`'NoneType' object has no attribute 'lower'`), modelled as `none`. -/
def MetaVal.getLowerD : MetaVal → Option String
  | .absent => some ""
  | .null => none
  | .str s => some (lowerStr s)

/-- Is the character an ASCII letter (`[A-Za-z]`)? -/
def isAsciiAlpha (c : Char) : Bool :=
  ('A' ≤ c && c ≤ 'Z') || ('a' ≤ c && c ≤ 'z')

/-! ## The `difflib.SequenceMatcher` similarity model

For strings shorter than 200 characters (so the autojunk heuristic does
nothing), `SequenceMatcher(None, a, b)` computes the total size `M` of the
Ratcliff/Obershelp matching blocks: the longest common contiguous block —
ties resolved towards the earliest start in `a`, then the earliest start in
`b` — plus, recursively, the matching blocks of the pieces to its left and to
its right.  `ratio()` is then `2 * M / (len(a) + len(b))` (and `1.0` when
both strings are empty). -/

/-- Length of the longest common prefix of two character lists. -/
def commonPrefixLen : List Char → List Char → Nat
  | c :: cs, d :: ds => if c = d then commonPrefixLen cs ds + 1 else 0
  | _, _ => 0

/-- The longest matching block `(i, j, k)` of two character lists:
`a.drop i` and `b.drop j` share a common prefix of length `k`, `k` maximal,
and among maximal blocks `i` is smallest, then `j` is smallest (the
tie-break of `difflib.SequenceMatcher.find_longest_match` without junk). -/
def bestMatch (a b : List Char) : Nat × Nat × Nat :=
  (List.range a.length).foldl
    (fun best i =>
      (List.range b.length).foldl
        (fun best j =>
          let k := commonPrefixLen (a.drop i) (b.drop j)
          if best.2.2 < k then (i, j, k) else best)
        best)
    (0, 0, 0)

/-- Fuel-indexed recursion computing the total size of the matching blocks:
the best block plus the blocks of the two remainders.  Every recursive call
is on a strictly shorter first list, so fuel `a.length` is always enough. -/
def matchedTotalAux : Nat → List Char → List Char → Nat
  | 0, _, _ => 0
  | fuel + 1, a, b =>
    let m := bestMatch a b
    if m.2.2 = 0 then 0
    else
      matchedTotalAux fuel (a.take m.1) (b.take m.2.1) + m.2.2 +
        matchedTotalAux fuel (a.drop (m.1 + m.2.2)) (b.drop (m.2.1 + m.2.2))

/-- Total size `M` of the Ratcliff/Obershelp matching blocks of `a` and `b`. -/
def matchedTotal (a b : List Char) : Nat :=
  matchedTotalAux a.length a b

/-- The Python float test `SequenceMatcher(None, a, b).ratio() < 0.7` as an
exact rational comparison: `2M/T < 7/10  ↔  20M < 7T` (for `T = 0` the ratio
is defined as `1.0`, and indeed `0 < 0` is false). -/
def simBelow07 (a b : String) : Bool :=
  20 * matchedTotal a.toList b.toList < 7 * (a.length + b.length)

/-! ## Calendar dates, `strptime` and `strftime` -/

/-- A calendar date, as produced by `datetime.strptime` on a date-only
format (time of day zero). -/
structure Ymd where
  y : Nat
  m : Nat
  d : Nat
deriving DecidableEq, Repr

/-- Strict comparison of calendar dates.  `date_obj > datetime.now()` for a
midnight `date_obj` holds exactly when the calendar date of `date_obj` is
strictly after the calendar date of the clock reading. -/
def Ymd.isBefore (a b : Ymd) : Bool :=
  a.y < b.y || (a.y = b.y && (a.m < b.m || (a.m = b.m && a.d < b.d)))

/-- Gregorian leap year, as used by `datetime`. -/
def isLeap (y : Nat) : Bool :=
  (y % 4 = 0 && y % 100 ≠ 0) || y % 400 = 0

/-- Days in a month, as validated by the `datetime` constructor. -/
def daysInMonth (y m : Nat) : Nat :=
  if m = 2 then (if isLeap y then 29 else 28)
  else if m = 4 ∨ m = 6 ∨ m = 9 ∨ m = 11 then 30
  else 31

/-- `strptime`'s `%d` / `%m` component: one or two digits whose value lies in
`[lo, hi]` (so `"0"` and `"00"` are rejected, `"05"` is accepted). -/
def parseNum2 (lo hi : Nat) (s : String) : Option Nat :=
  if s.length = 1 ∨ s.length = 2 then
    match digitsToNat? s with
    | some n => if lo ≤ n ∧ n ≤ hi then some n else none
    | none => none
  else none

/-- `strptime`'s `%Y` component: exactly four digits, and the `datetime`
constructor additionally requires a year of at least 1. -/
def parseYear4 (s : String) : Option Nat :=
  if s.length = 4 ∧ s.toList.all Char.isDigit then
    match digitsToNat? s with
    | some n => if 1 ≤ n then some n else none
    | none => none
  else none

/-- The `datetime(y, m, d)` constructor check on the day of the month. -/
def mkValidDate (y m d : Nat) : Option Ymd :=
  if d ≤ daysInMonth y m then some ⟨y, m, d⟩ else none

/-- `datetime.strptime(s, '%d<sep>%m<sep>%Y')`. -/
def parseDMY (sep : Char) (s : String) : Option Ymd :=
  match splitOnChar sep s with
  | [p1, p2, p3] =>
    (parseNum2 1 31 p1).bind fun d =>
      (parseNum2 1 12 p2).bind fun m =>
        (parseYear4 p3).bind fun y => mkValidDate y m d
  | _ => none

/-- `datetime.strptime(s, '%m<sep>%d<sep>%Y')`. -/
def parseMDY (sep : Char) (s : String) : Option Ymd :=
  match splitOnChar sep s with
  | [p1, p2, p3] =>
    (parseNum2 1 12 p1).bind fun m =>
      (parseNum2 1 31 p2).bind fun d =>
        (parseYear4 p3).bind fun y => mkValidDate y m d
  | _ => none

/-- `datetime.strptime(s, '%Y<sep>%m<sep>%d')`. -/
def parseYMD (sep : Char) (s : String) : Option Ymd :=
  match splitOnChar sep s with
  | [p1, p2, p3] =>
    (parseYear4 p1).bind fun y =>
      (parseNum2 1 12 p2).bind fun m =>
        (parseNum2 1 31 p3).bind fun d => mkValidDate y m d
  | _ => none

/-- The six formats tried, in order, on every extracted date string of the
cross-document check:
`'%d/%m/%Y', '%m/%d/%Y', '%Y/%m/%d', '%d-%m-%Y', '%m-%d-%Y', '%Y-%m-%d'`. -/
def strptime6 (s : String) : Option Ymd :=
  (parseDMY '/' s).orElse fun _ =>
    (parseMDY '/' s).orElse fun _ =>
      (parseYMD '/' s).orElse fun _ =>
        (parseDMY '-' s).orElse fun _ =>
          (parseMDY '-' s).orElse fun _ => parseYMD '-' s

/-- The date-of-birth field is parsed with `'%Y-%m-%d'` first, then
`'%d/%m/%Y'`; failure of both is silently swallowed. -/
def parseDobClaim (dob : String) : Option Ymd :=
  (parseYMD '-' dob).orElse fun _ => parseDMY '/' dob

/-- `strftime` zero-padded two-digit component (`%d`, `%m`). -/
def pad2 (n : Nat) : String :=
  if n < 10 then "0" ++ toString n else toString n

/-- `strftime('%B')`: the full English month name. -/
def monthName : Nat → String
  | 1 => "January" | 2 => "February" | 3 => "March" | 4 => "April"
  | 5 => "May" | 6 => "June" | 7 => "July" | 8 => "August"
  | 9 => "September" | 10 => "October" | 11 => "November" | 12 => "December"
  | _ => ""

/-- The six `strftime` renderings searched for the date of birth, in the
order of the source (`%Y` prints the year unpadded on glibc). -/
def dobSearchStrs (t : Ymd) : List String :=
  [pad2 t.d ++ "/" ++ pad2 t.m ++ "/" ++ toString t.y,
   pad2 t.d ++ "-" ++ pad2 t.m ++ "-" ++ toString t.y,
   toString t.y ++ "-" ++ pad2 t.m ++ "-" ++ pad2 t.d,
   toString t.y ++ "/" ++ pad2 t.m ++ "/" ++ pad2 t.d,
   pad2 t.d ++ " " ++ monthName t.m ++ " " ++ toString t.y,
   monthName t.m ++ " " ++ pad2 t.d ++ ", " ++ toString t.y]

/-! ## Regular-expression models

The cross-document validator uses `re.search` / `re.findall` with a handful
of concrete patterns.  Each pattern is translated into a function that tries
to match at the start of a character list (returning the matched text and
the remainder), honouring the engine's ordering: greedy quantifiers with
ordered backtracking, leftmost match first, and for `findall`
non-overlapping matches continuing right after each match. -/

/-- Exactly `n` leading digits (`\d{n}` on ASCII text). -/
def tryDigits (l : List Char) (n : Nat) : Option (List Char × List Char) :=
  let t := l.take n
  if t.length = n ∧ t.all Char.isDigit then some (t, l.drop n) else none

/-- A leading separator character: a slash or a hyphen. -/
def trySep : List Char → Option (Char × List Char)
  | c :: r => if c = '/' ∨ c = '-' then some (c, r) else none
  | [] => none

/-- Match the first date pattern — one or two digits, a slash-or-hyphen
separator, one or two digits, a separator, two to four digits — at the start
of the list (greedy: two digits before one, four before three before two). -/
def matchP1 (l : List Char) : Option (List Char × List Char) :=
  [2, 1].findSome? fun n1 =>
    (tryDigits l n1).bind fun p1 =>
      (trySep p1.2).bind fun s1 =>
        [2, 1].findSome? fun n2 =>
          (tryDigits s1.2 n2).bind fun p2 =>
            (trySep p2.2).bind fun s2 =>
              [4, 3, 2].findSome? fun n3 =>
                (tryDigits s2.2 n3).map fun p3 =>
                  (p1.1 ++ [s1.1] ++ p2.1 ++ [s2.1] ++ p3.1, p3.2)

/-- Match the second date pattern — four digits, a slash-or-hyphen
separator, one or two digits, a separator, one or two digits — at the start
of the list. -/
def matchP2 (l : List Char) : Option (List Char × List Char) :=
  (tryDigits l 4).bind fun p1 =>
    (trySep p1.2).bind fun s1 =>
      [2, 1].findSome? fun n2 =>
        (tryDigits s1.2 n2).bind fun p2 =>
          (trySep p2.2).bind fun s2 =>
            [2, 1].findSome? fun n3 =>
              (tryDigits s2.2 n3).map fun p3 =>
                (p1.1 ++ [s1.1] ++ p2.1 ++ [s2.1] ++ p3.1, p3.2)

/-- The three-letter month alternatives of the third date pattern, in the
order they appear in the alternation (pairwise distinct, so at most one of
them can match at a given position). -/
def monthAbbrevs : List (List Char) :=
  ["Jan", "Feb", "Mar", "Apr", "May", "Jun",
   "Jul", "Aug", "Sep", "Oct", "Nov", "Dec"].map String.toList

/-- Match `\d{1,2}\s+(?:Jan|…|Dec)[a-z]*\s+\d{4}` at the start of the list
(no `IGNORECASE` flag here, so the month names are case sensitive). -/
def matchP3 (l : List Char) : Option (List Char × List Char) :=
  [2, 1].findSome? fun n1 =>
    (tryDigits l n1).bind fun p1 =>
      let w1 := p1.2.takeWhile isWsChar
      if w1.isEmpty then none
      else
        let r2 := p1.2.dropWhile isWsChar
        monthAbbrevs.findSome? fun mon =>
          if mon.isPrefixOf r2 then
            let r3 := r2.drop mon.length
            let low := r3.takeWhile fun c => 'a' ≤ c && c ≤ 'z'
            let r4 := r3.dropWhile fun c => 'a' ≤ c && c ≤ 'z'
            let w2 := r4.takeWhile isWsChar
            if w2.isEmpty then none
            else
              (tryDigits (r4.dropWhile isWsChar) 4).map fun p3 =>
                (p1.1 ++ w1 ++ mon ++ low ++ w2 ++ p3.1, p3.2)
          else none

/-- `re.findall` driver: scan left to right, emit each leftmost match and
continue after it.  Every pattern used here consumes at least one character,
so fuel `l.length` never runs out. -/
def findallAux (matchP : List Char → Option (List Char × List Char)) :
    Nat → List Char → List String
  | 0, _ => []
  | _, [] => []
  | fuel + 1, c :: cs =>
    match matchP (c :: cs) with
    | some m => m.1.asString :: findallAux matchP fuel m.2
    | none => findallAux matchP fuel cs

/-- `re.findall(pattern, text)` for one of the three date patterns. -/
def findall (matchP : List Char → Option (List Char × List Char))
    (l : List Char) : List String :=
  findallAux matchP l.length l

/-- Scan every start position (leftmost first, including the empty suffix)
and return the first site where the site matcher succeeds — the semantics of
`re.search`. -/
def scanSites (site : List Char → Option String) : List Char → Option String
  | [] => site []
  | c :: cs =>
    match site (c :: cs) with
    | some r => some r
    | none => scanSites site cs

/-- A character of the class `[A-Za-z\s]`. -/
def nameClassChar (c : Char) : Bool :=
  isAsciiAlpha c || isWsChar c

/-- Try `name\s*:\s*([A-Za-z\s]+)` (with `IGNORECASE`) at the start of the
list and return group 1.  Greedy `\s*` takes the maximal whitespace run; if
no class character follows it, the engine backtracks one step and the group
captures a single whitespace character. -/
def nameColonSite : List Char → Option String
  | n :: a :: m :: e :: rest =>
    if n.toLower = 'n' ∧ a.toLower = 'a' ∧ m.toLower = 'm' ∧ e.toLower = 'e' then
      match rest.dropWhile isWsChar with
      | ':' :: r =>
        let g := (r.dropWhile isWsChar).takeWhile nameClassChar
        if g.isEmpty then
          match r with
          | c :: _ => if isWsChar c then some (String.mk [c]) else none
          | [] => none
        else some g.asString
      | _ => none
    else none
  | _ => none

/-- Try `([A-Za-z]+\s+[A-Za-z]+)` at the start of the list: a maximal letter
run, a non-empty whitespace run, a maximal letter run. -/
def twoWordSite : List Char → Option String
  | [] => none
  | c :: cs =>
    if isAsciiAlpha c then
      let l1 := (c :: cs).takeWhile isAsciiAlpha
      let r1 := (c :: cs).dropWhile isAsciiAlpha
      let w := r1.takeWhile isWsChar
      if w.isEmpty then none
      else
        let l2 := (r1.dropWhile isWsChar).takeWhile isAsciiAlpha
        if l2.isEmpty then none else some (l1 ++ w ++ l2).asString
    else none

/-! ## Status derivation (shared tail of all four validators) -/

/-- Number of issues with the given severity. -/
def countSeverity (s : Severity) (issues : List Issue) : Nat :=
  (issues.filter fun i => i.severity == s).length

/-- The closing lines of every validator: count critical and warning issues
and set `Failed` / `Warning` / `Passed`. -/
def deriveStatus (issues : List Issue) : Status :=
  if 0 < countSeverity .critical issues then .Failed
  else if 0 < countSeverity .warning issues then .Warning
  else .Passed

/-- Package an issue list into a category result with its derived status. -/
def finalize (issues : List Issue) : CategoryResult :=
  ⟨issues, deriveStatus issues⟩

/-- Concatenation of the per-element issue lists, in document order (the
`for` loops appending to a shared list). -/
def concatMap (f : α → List β) : List α → List β
  | [] => []
  | x :: xs => f x ++ concatMap f xs

/-- Dict lookup `processed_docs[k]` / membership `k in processed_docs`
(keys are unique, so the first hit is the only one). -/
def lookupDoc (docs : Docs) (k : String) : Option ExtractedDocument :=
  (docs.find? fun p => p.1 == k).map Prod.snd

/-! ## `validate_personal_info` -/

/-- How many name parts of length above two occur in the document text. -/
def nameMatchCount (name_parts : List String) (text : String) : Nat :=
  (name_parts.filter fun p => p.length > 2 && strIn p text).length

/-- The per-document name test of the source: at least half of ALL name
parts (short parts included in the denominator) must be found, where only
parts of length above two can count as found. -/
def codeNameMatches (full_name text : String) : Bool :=
  let name_parts := pySplitWs full_name
  2 * nameMatchCount name_parts text ≥ name_parts.length

/-- The `name_mismatch` issue appended for one failing document. -/
def nameMismatchIssue (full_name doc_type : String) : Issue :=
  { type := "name_mismatch", document := some doc_type,
    description := "Name \x22" ++ full_name ++ "\x22 not clearly found in " ++ doc_type,
    severity := .warning }

/-- The name loop: one warning per document in which fewer than half of the
name parts are found (the `name_found` flag of the source is dead code). -/
def nameIssues (docs : Docs) (full_name : String) : List Issue :=
  docs.filterMap fun p =>
    if codeNameMatches full_name (lowerStr p.2.text) then none
    else some (nameMismatchIssue full_name p.1)

/-- The `dob_mismatch` issue (claim-wide, no `document` key). -/
def dobMismatchIssue : Issue :=
  { type := "dob_mismatch",
    description := "Date of birth not found in any document",
    severity := .warning }

/-- The date-of-birth block: if the claim value is set and parses, search
every rendering in every document's raw text; emit one warning if none is
found anywhere.  An unset or unparsable value is skipped silently. -/
def dobIssues (docs : Docs) (dob : String) : List Issue :=
  if dob.isEmpty then []
  else
    match parseDobClaim dob with
    | none => []
    | some t =>
      if docs.any (fun p => (dobSearchStrs t).any fun f => strIn f p.2.text) then []
      else [dobMismatchIssue]

/-- Does some document contain the claimed field value?  For `address` the
value is split on commas and newlines and at least half of ALL parts
(parts of length at most three, after stripping, cannot count) must occur in
a single document's text; the other fields use exact substring search. -/
def fieldFound (docs : Docs) (field field_value : String) : Bool :=
  docs.any fun p =>
    let text := (lowerStr p.2.text)
    if field = "address" then
      let address_parts := splitCommaNl field_value
      let address_matches :=
        (address_parts.filter fun part =>
          ((trimStr part).length > 3 && strIn (trimStr part) text)).length
      2 * address_matches ≥ address_parts.length
    else strIn field_value text

/-- The `<field>_mismatch` issue for `citizenship` / `address` / `gender`. -/
def fieldMismatchIssue (field : String) : Issue :=
  { type := field ++ "_mismatch",
    description := pyCapitalize field ++ " information not found in documents",
    severity := .warning }

/-- One iteration of the loop over `['citizenship', 'address', 'gender']`. -/
def checkField (docs : Docs) (field value : String) : List Issue :=
  if value.isEmpty then []
  else if fieldFound docs field (lowerStr value) then []
  else [fieldMismatchIssue field]

/-- `validate_personal_info(processed_docs, personal_data)`. -/
def validate_personal_info (docs : Docs) (pd : PersonalData) : CategoryResult :=
  finalize
    (nameIssues docs (lowerStr pd.name) ++
     dobIssues docs pd.dob ++
     checkField docs "citizenship" pd.citizenship ++
     checkField docs "address" pd.address ++
     checkField docs "gender" pd.gender)

/-! ## `validate_academic_info` -/

/-- The `major_mismatch` warning. -/
def majorMismatchIssue (major : String) : Issue :=
  { type := "major_mismatch",
    description := "Major \x22" ++ major ++ "\x22 not found in documents",
    severity := .warning }

/-- Major: exact substring search in any document. -/
def majorIssues (docs : Docs) (major : String) : List Issue :=
  if major.isEmpty then []
  else if docs.any (fun p => strIn major (lowerStr p.2.text)) then []
  else [majorMismatchIssue major]

/-- Does one document match the claimed university, by exact substring or by
the partial-token rule (at least half of ALL parts found, only parts of
length above two counting)? -/
def universityMatchesDoc (university : String) (university_parts : List String)
    (text : String) : Bool :=
  strIn university text ||
    2 * (university_parts.filter fun p => p.length > 2 && strIn p text).length ≥
      university_parts.length

/-- The critical `university_mismatch` issue. -/
def universityMismatchIssue (university : String) : Issue :=
  { type := "university_mismatch",
    description := "University \x22" ++ university ++ "\x22 not found in documents",
    severity := .critical }

/-- University: exact or partial match in any document; absence is the one
critical mismatch of this category. -/
def universityIssues (docs : Docs) (university : String) : List Issue :=
  if university.isEmpty then []
  else if docs.any (fun p =>
      universityMatchesDoc university (pySplitWs university) (lowerStr p.2.text)) then []
  else [universityMismatchIssue university]

/-- The degree-level synonym table, in dict insertion order. -/
def degree_variants : List (String × List String) :=
  [("bachelor", ["bachelor", "bachelor\x27s", "bachelors", "b.a.", "b.s.",
                 "b.sc", "bs", "ba"]),
   ("master", ["master", "master\x27s", "masters", "m.a.", "m.s.", "m.sc",
               "ms", "ma"]),
   ("doctorate", ["doctorate", "doctoral", "ph.d.", "phd",
                  "doctor of philosophy"]),
   ("associate", ["associate", "a.a.", "a.s.", "associate\x27s"])]

/-- Collect the synonym lists of every table key that occurs as a substring
of the claimed degree level. -/
def applicableVariants (degree_level : String) : List String :=
  degree_variants.foldl
    (fun acc kv => if strIn kv.1 degree_level then acc ++ kv.2 else acc) []

/-- The `degree_level_mismatch` warning. -/
def degreeMismatchIssue (degree_level : String) : Issue :=
  { type := "degree_level_mismatch",
    description := "Degree level \x22" ++ degree_level ++ "\x22 not found in documents",
    severity := .warning }

/-- Degree level: any applicable synonym found in any document. -/
def degreeIssues (docs : Docs) (degree_level : String) : List Issue :=
  if degree_level.isEmpty then []
  else if docs.any (fun p =>
      (applicableVariants degree_level).any fun v => strIn v (lowerStr p.2.text)) then []
  else [degreeMismatchIssue degree_level]

/-- Does the lowercased transcript text contain any match of the grade
pattern?  The pattern (with `IGNORECASE`) matches at some position exactly
when some character of the text is one of `a`, `b`, `c`, `d`, `f` (in either
case): every single such letter matches the first alternative, and the
`pass` / `fail` alternatives contain such letters themselves. -/
def hasGradeToken (text : String) : Bool :=
  text.toList.any fun c =>
    ("abcdfABCDF".toList).contains c

/-- The `grade_not_found` warning. -/
def gradeNotFoundIssue : Issue :=
  { type := "grade_not_found",
    description := "No grades found in transcript",
    severity := .warning }

/-- Grade: only checked when both the claim grade and a transcript are
present; the check only asks whether the transcript contains any grade-like
token at all. -/
def gradeIssues (docs : Docs) (grade : String) : List Issue :=
  if grade.isEmpty then []
  else
    match lookupDoc docs "transcript" with
    | none => []
    | some tr => if hasGradeToken (lowerStr tr.text) then [] else [gradeNotFoundIssue]

/-- The `graduation_year_not_found` warning. -/
def gradYearNotFoundIssue : Issue :=
  { type := "graduation_year_not_found",
    description := "Graduation year not found in student record",
    severity := .warning }

/-- The `graduation_year_mismatch` warning. -/
def gradYearMismatchIssue (claimed recorded : String) : Issue :=
  { type := "graduation_year_mismatch",
    description := "Graduation year in form (" ++ claimed ++
      ") does not match record (" ++ recorded ++ ")",
    severity := .warning }

/-- Graduation year: compared against the student record's metadata value;
a falsy metadata value (absent key, `None`, or empty string) gives the
not-found warning, a differing string gives the mismatch warning. -/
def gradYearIssues (docs : Docs) (graduation_year : String) : List Issue :=
  if graduation_year.isEmpty then []
  else
    match lookupDoc docs "student_record" with
    | none => []
    | some sr =>
      match sr.metadata.graduation_year with
      | .str s =>
        if s.isEmpty then [gradYearNotFoundIssue]
        else if graduation_year ≠ s then [gradYearMismatchIssue graduation_year s]
        else []
      | _ => [gradYearNotFoundIssue]

/-- The `graduation_season_not_found` warning. -/
def gradSeasonNotFoundIssue : Issue :=
  { type := "graduation_season_not_found",
    description := "Graduation season not found in student record",
    severity := .warning }

/-- The `graduation_season_mismatch` warning. -/
def gradSeasonMismatchIssue (claimed recorded : String) : Issue :=
  { type := "graduation_season_mismatch",
    description := "Graduation season in form (" ++ claimed ++
      ") does not match record (" ++ recorded ++ ")",
    severity := .warning }

/-- Graduation season: the source reads
`metadata.get('graduation_season', '').lower()`, which raises
`AttributeError` when the key is present with value `None` — modelled as
`none`.  Otherwise a falsy value gives the not-found warning and a string
differing from the (already lowercased) claim gives the mismatch warning. -/
def gradSeasonIssues (docs : Docs) (graduation_season : String) :
    Option (List Issue) :=
  if graduation_season.isEmpty then some []
  else
    match lookupDoc docs "student_record" with
    | none => some []
    | some sr =>
      match sr.metadata.graduation_season.getLowerD with
      | none => none
      | some recorded =>
        if recorded.isEmpty then some [gradSeasonNotFoundIssue]
        else if graduation_season ≠ (lowerStr recorded) then
          some [gradSeasonMismatchIssue graduation_season recorded]
        else some []

/-- `validate_academic_info(processed_docs, academic_data)`.  The result is
`none` when the function raises (graduation-season metadata stored as
`None`); the `study_mode` field is read by the source but never used. -/
def validate_academic_info (docs : Docs) (ad : AcademicData) :
    Option CategoryResult :=
  match gradSeasonIssues docs (lowerStr ad.graduation_season) with
  | none => none
  | some seasonIssues =>
    some (finalize
      (majorIssues docs (lowerStr ad.major) ++
       universityIssues docs (lowerStr ad.university) ++
       degreeIssues docs (lowerStr ad.degree_level) ++
       gradeIssues docs (lowerStr ad.grade) ++
       gradYearIssues docs ad.graduation_year ++
       seasonIssues))

/-! ## `validate_document_authenticity` -/

/-- The `missing_header` warning (three document types share it, with
different descriptions). -/
def missingHeaderIssue (doc_type description : String) : Issue :=
  { type := "missing_header", document := some doc_type,
    description := description, severity := .warning }

/-- The critical `missing_id_number` issue of `student_id` documents. -/
def missingIdNumberIssue : Issue :=
  { type := "missing_id_number", document := some "student_id",
    description := "No student ID number found in ID letter",
    severity := .critical }

/-- The critical `missing_courses` issue of transcripts. -/
def missingCoursesIssue : Issue :=
  { type := "missing_courses", document := some "transcript",
    description := "No course codes found in transcript",
    severity := .critical }

/-- The critical `missing_grades` issue of transcripts. -/
def missingGradesIssue : Issue :=
  { type := "missing_grades", document := some "transcript",
    description := "No grades found in transcript",
    severity := .critical }

/-- The `missing_letterhead` warning of student records. -/
def missingLetterheadIssue : Issue :=
  { type := "missing_letterhead", document := some "student_record",
    description := "Student record lacks official letterhead",
    severity := .warning }

/-- The `missing_status` warning of student records. -/
def missingStatusIssue : Issue :=
  { type := "missing_status", document := some "student_record",
    description := "No student status found in student record",
    severity := .warning }

/-- The `missing_signature` warning of union letters. -/
def missingSignatureIssue : Issue :=
  { type := "missing_signature", document := some "union_letter",
    description := "No signature found in union letter",
    severity := .warning }

/-- The `missing_date` warning appended for every document without the
`has_date` marker. -/
def missingDateIssue (doc_type : String) : Issue :=
  { type := "missing_date", document := some doc_type,
    description := "No date found in " ++ doc_type,
    severity := .warning }

/-- The issues appended for one document by the authenticity loop: the
type-specific structural checks followed by the common `has_date` check. -/
def authIssuesFor (doc_type : String) (doc_data : ExtractedDocument) : List Issue :=
  let md := doc_data.metadata
  let fm := md.format_markers
  (if doc_type = "student_id" then
      (if fm.has_header then []
       else [missingHeaderIssue doc_type "Student ID letter lacks proper header"]) ++
      (if md.id_number.truthy then [] else [missingIdNumberIssue])
   else if doc_type = "transcript" then
      (if fm.has_header then []
       else [missingHeaderIssue doc_type "Transcript lacks proper university header"]) ++
      (if md.courses.isEmpty then [missingCoursesIssue] else []) ++
      (if md.grades.isEmpty then [missingGradesIssue] else [])
   else if doc_type = "student_record" then
      (if fm.has_letterhead then [] else [missingLetterheadIssue]) ++
      (if md.status.truthy then [] else [missingStatusIssue])
   else if doc_type = "union_letter" then
      (if fm.has_header then []
       else [missingHeaderIssue doc_type "Union letter lacks organizational header"]) ++
      (if md.has_signature then [] else [missingSignatureIssue])
   else []) ++
  (if fm.has_date then [] else [missingDateIssue doc_type])

/-- `validate_document_authenticity(processed_docs)`. -/
def validate_document_authenticity (docs : Docs) : CategoryResult :=
  finalize (concatMap (fun p => authIssuesFor p.1 p.2) docs)

/-! ## `validate_cross_document_consistency` -/

/-- Name extraction for one document: the first `PERSON` entity if any; else
the first and only successful of the two name regexes, with the captured
group stripped. -/
def extractName (doc_data : ExtractedDocument) : Option String :=
  match doc_data.person_entities with
  | e :: _ => some e
  | [] =>
    match scanSites nameColonSite doc_data.text.toList with
    | some g => some (trimStr g)
    | none => (scanSites twoWordSite doc_data.text.toList).map trimStr

/-- The `names_by_doc` dict, in document order. -/
def namesByDoc (docs : Docs) : List (String × String) :=
  docs.filterMap fun p => (extractName p.2).map fun n => (p.1, n)

/-- The critical `name_inconsistency` issue, listing the reference document
type and the differing document type. -/
def nameInconsistencyIssue (ref_doc doc_type ref_name name : String) : Issue :=
  { type := "name_inconsistency",
    documents := [ref_doc, doc_type],
    description := "Name inconsistency between documents: \x22" ++ ref_name ++
      "\x22 vs \x22" ++ name ++ "\x22",
    severity := .critical }

/-- The name comparison block: with at least two extracted names, compare
every later name against the first one (lowercased, fuzzy ratio below 0.7
is an inconsistency). -/
def nameIncIssues (docs : Docs) : List Issue :=
  match namesByDoc docs with
  | [] => []
  | (ref_doc, ref_name) :: rest =>
    if rest.isEmpty then []
    else
      rest.filterMap fun p =>
        if simBelow07 (lowerStr ref_name) (lowerStr p.2) then
          some (nameInconsistencyIssue ref_doc p.1 ref_name p.2)
        else none

/-- Date extraction for one document: the first of the three patterns that
yields any match determines all recorded dates; a document with no match on
any pattern is left out of `dates_by_doc`. -/
def extractDates (text : List Char) : Option (List String) :=
  let m1 := findall matchP1 text
  if !m1.isEmpty then some m1
  else
    let m2 := findall matchP2 text
    if !m2.isEmpty then some m2
    else
      let m3 := findall matchP3 text
      if !m3.isEmpty then some m3 else none

/-- The `dates_by_doc` dict, in document order. -/
def datesByDoc (docs : Docs) : List (String × List String) :=
  docs.filterMap fun p => (extractDates p.2.text.toList).map fun ds => (p.1, ds)

/-- The critical `future_date` issue. -/
def futureDateIssue (doc_type date_str : String) : Issue :=
  { type := "future_date", document := some doc_type,
    description := "Document contains a future date: " ++ date_str,
    severity := .critical }

/-- The timeline block: when at least two documents yielded dates, every
extracted date string that parses (under six formats) to a date strictly
after the current date is flagged; unparsable strings are skipped. -/
def futureIssues (docs : Docs) (now : Ymd) : List Issue :=
  if (datesByDoc docs).length < 2 then []
  else
    concatMap
      (fun p => p.2.filterMap fun date_str =>
        match strptime6 date_str with
        | some d => if now.isBefore d then some (futureDateIssue p.1 date_str) else none
        | none => none)
      (datesByDoc docs)

/-- `validate_cross_document_consistency(processed_docs)`, with
`datetime.now()` modelled as the explicit `now` parameter. -/
def validate_cross_document_consistency (docs : Docs) (now : Ymd) : CategoryResult :=
  if docs.length < 2 then { issues := [], status := .Passed }
  else finalize (nameIncIssues docs ++ futureIssues docs now)

/-! ## `validate_documents` -/

/-- `validate_documents(processed_docs, personal_data, academic_data)`: the
four category results plus the overall status derived from the union of all
issues.  The result is `none` when `validate_academic_info` raises. -/
def validate_documents (docs : Docs) (pd : PersonalData) (ad : AcademicData)
    (now : Ymd) : Option ValidationReport :=
  match validate_academic_info docs ad with
  | none => none
  | some academic =>
    let personal := validate_personal_info docs pd
    let authenticity := validate_document_authenticity docs
    let cross := validate_cross_document_consistency docs now
    some
      { personal_validation := personal,
        academic_validation := academic,
        document_authenticity := authenticity,
        cross_document_consistency := cross,
        overall_status :=
          deriveStatus (personal.issues ++ academic.issues ++
            authenticity.issues ++ cross.issues) }

/-! ## The severity-escalation rule as stated by the specification -/

/-- The escalation rule of the specification, relating a status to the issue
list it summarizes: `Failed` exactly when a critical issue is present;
otherwise `Warning` exactly when any issue is present; otherwise `Passed`. -/
def escalationSpec (issues : List Issue) (st : Status) : Prop :=
  (st = Status.Failed ↔ ∃ i ∈ issues, i.severity = Severity.critical) ∧
  ((¬ ∃ i ∈ issues, i.severity = Severity.critical) →
    (st = Status.Warning ↔ issues ≠ [])) ∧
  ((¬ ∃ i ∈ issues, i.severity = Severity.critical) → issues = [] →
    st = Status.Passed)

/-- A category result whose status is derived from its issues by the
escalation rule. -/
def statusInv (r : CategoryResult) : Prop :=
  escalationSpec r.issues r.status

/-- `0 < countSeverity s issues` says exactly that some issue has severity
`s`. -/
lemma countSeverity_pos (s : Severity) (issues : List Issue) :
    0 < countSeverity s issues ↔ ∃ i ∈ issues, i.severity = s := by
  simp [countSeverity, List.length_pos_iff_exists_mem, List.mem_filter,
    beq_iff_eq]

/-- An issue's severity is `critical` or `warning`. -/
lemma severity_dichotomy (s : Severity) :
    s = Severity.critical ∨ s = Severity.warning := by
  cases s
  · exact Or.inl rfl
  · exact Or.inr rfl

/-- The status computed by the shared closing lines of every validator
satisfies the escalation rule of the specification. -/
lemma escalationSpec_deriveStatus (issues : List Issue) :
    escalationSpec issues (deriveStatus issues) := by
  by_cases hc : ∃ i ∈ issues, i.severity = Severity.critical
  · have h1 : 0 < countSeverity Severity.critical issues :=
      (countSeverity_pos _ _).mpr hc
    refine ⟨?_, fun h => absurd hc h, fun h => absurd hc h⟩
    simp [deriveStatus, h1, hc]
  · have h1 : ¬ 0 < countSeverity Severity.critical issues := by
      rw [countSeverity_pos]; exact hc
    rcases heq : issues with _ | ⟨i, rest⟩
    · have h2 : ¬ 0 < countSeverity Severity.warning [] := by
        simp [countSeverity]
      refine ⟨?_, fun _ => ?_, fun _ _ => ?_⟩ <;>
        simp_all [deriveStatus, countSeverity]
    · have hw : i.severity = Severity.warning := by
        rcases severity_dichotomy i.severity with h | h
        · exact absurd ⟨i, by simp [heq], h⟩ (heq ▸ hc)
        · exact h
      have h2 : 0 < countSeverity Severity.warning (i :: rest) := by
        rw [countSeverity_pos]
        exact ⟨i, by simp, hw⟩
      have h1' : ¬ 0 < countSeverity Severity.critical (i :: rest) := heq ▸ h1
      refine ⟨?_, fun _ => ?_, fun _ hnil => ?_⟩
      · have hc' : ¬∃ j ∈ (i :: rest), j.severity = Severity.critical := heq ▸ hc
        simp [deriveStatus, h1', h2]
        simpa using hc'
      · simp [deriveStatus, h1', h2]
      · exact absurd hnil (by simp)

/-- `finalize` establishes the invariant. -/
lemma statusInv_finalize (issues : List Issue) : statusInv (finalize issues) :=
  escalationSpec_deriveStatus issues

/-- The short-circuit result of the cross-document validator satisfies the
invariant. -/
lemma statusInv_empty_passed :
    statusInv ({ issues := [], status := .Passed } : CategoryResult) := by
  refine ⟨?_, fun _ => ?_, fun _ _ => rfl⟩ <;> simp [statusInv, escalationSpec]

/-- C2: every category result produced by any of the four validators has its
status derived from its issue list by the escalation rule: `Failed` iff a
critical issue is present, else `Warning` iff any issue is present, else
`Passed` (for the academic validator, whenever it returns at all). -/
theorem validators_satisfy_status_invariant (docs : Docs) (pd : PersonalData)
    (ad : AcademicData) (now : Ymd) :
    statusInv (validate_personal_info docs pd) ∧
    (validate_academic_info docs ad).elim True statusInv ∧
    statusInv (validate_document_authenticity docs) ∧
    statusInv (validate_cross_document_consistency docs now) := by
  refine ⟨statusInv_finalize _, ?_, statusInv_finalize _, ?_⟩
  · unfold validate_academic_info
    cases gradSeasonIssues docs (lowerStr ad.graduation_season) with
    | none => trivial
    | some seasonIssues => exact statusInv_finalize _
  · unfold validate_cross_document_consistency
    by_cases h : docs.length < 2
    · simpa [h] using statusInv_empty_passed
    · simpa [h] using statusInv_finalize (nameIncIssues docs ++ futureIssues docs now)

/-- C1: whenever `validate_documents` returns a report, its `overall_status`
is the escalation rule applied to the concatenation of the issue lists of
the four category results: `Failed` iff any issue of any category is
critical, else `Warning` iff any issue exists, else `Passed`. -/
theorem overall_status_escalation (docs : Docs) (pd : PersonalData)
    (ad : AcademicData) (now : Ymd) :
    (validate_documents docs pd ad now).elim True fun r =>
      escalationSpec
        (r.personal_validation.issues ++ r.academic_validation.issues ++
          r.document_authenticity.issues ++ r.cross_document_consistency.issues)
        r.overall_status := by
  unfold validate_documents
  cases validate_academic_info docs ad with
  | none => trivial
  | some academic =>
    simpa using escalationSpec_deriveStatus
      ((validate_personal_info docs pd).issues ++ academic.issues ++
        (validate_document_authenticity docs).issues ++
        (validate_cross_document_consistency docs now).issues)

/-! ## C3: a `None`-valued `graduation_season` metadata entry -/

/-- A document map whose `student_record` stores `None` under
`graduation_season` — exactly what the extraction side produces when its
season regexes find nothing. -/
def docsSeasonNull : Docs :=
  [("student_record", { metadata := { graduation_season := MetaVal.null } })]

/-- A claim that provides a graduation season. -/
def adSeasonClaim : AcademicData := { graduation_season := "Spring" }

/-- An empty personal-information claim. -/
def pdEmpty : PersonalData := {}

/-- C3: with a claimed graduation season and a `student_record` whose
metadata maps `graduation_season` to `None`, the academic validator does not
skip or warn — `metadata.get('graduation_season', '').lower()` raises
`AttributeError`, so neither `validate_academic_info` nor `validate_documents`
returns a result. -/
theorem season_null_metadata_crashes :
    validate_academic_info docsSeasonNull adSeasonClaim = none ∧
    validate_documents docsSeasonNull pdEmpty adSeasonClaim ⟨2025, 10, 12⟩ = none :=
  ⟨by decide, by decide⟩

/-! ## C8: fewer than two documents short-circuit the cross validator -/

/-- C8: with zero or one documents, the cross-document consistency validator
returns status `Passed` with an empty issue list (for any claim — the
function does not read the claim at all). -/
theorem crossdoc_few_docs_passed (docs : Docs) (now : Ymd)
    (h : docs.length ≤ 1) :
    validate_cross_document_consistency docs now =
      { issues := [], status := Status.Passed } := by
  unfold validate_cross_document_consistency
  rw [if_pos (by omega)]

/-- Witness for C8 at the empty document map. -/
theorem crossdoc_few_docs_passed_witness :
    ([] : Docs).length ≤ 1 ∧
      validate_cross_document_consistency [] ⟨2025, 10, 12⟩ =
        { issues := [], status := Status.Passed } :=
  ⟨by decide, crossdoc_few_docs_passed [] ⟨2025, 10, 12⟩ (by decide)⟩

/-! ## C10: degree levels outside the synonym table -/

/-- C10: a non-empty claimed degree level containing none of the four mapped
keys (`bachelor`, `master`, `doctorate`, `associate`) makes the applicable
synonym set empty, so the academic validator emits the
`degree_level_mismatch` warning no matter what the documents contain. -/
theorem unmapped_degree_level_always_warns (docs : Docs) (ad : AcademicData)
    (h1 : ¬ ((lowerStr ad.degree_level).isEmpty = true))
    (h2 : ∀ k ∈ ["bachelor", "master", "doctorate", "associate"],
        strIn k (lowerStr ad.degree_level) = false) :
    (validate_academic_info docs ad).elim True fun r =>
      degreeMismatchIssue (lowerStr ad.degree_level) ∈ r.issues ∧
      (degreeMismatchIssue (lowerStr ad.degree_level)).severity = Severity.warning := by
  have hb := h2 "bachelor" (by simp)
  have hm := h2 "master" (by simp)
  have hd := h2 "doctorate" (by simp)
  have ha := h2 "associate" (by simp)
  have hvar : applicableVariants (lowerStr ad.degree_level) = [] := by
    simp [applicableVariants, degree_variants, hb, hm, hd, ha]
  have hdeg : degreeIssues docs (lowerStr ad.degree_level) =
      [degreeMismatchIssue (lowerStr ad.degree_level)] := by
    unfold degreeIssues
    rw [if_neg h1, hvar]
    simp
  unfold validate_academic_info
  cases gradSeasonIssues docs (lowerStr ad.graduation_season) with
  | none => trivial
  | some seasonIssues =>
    refine ⟨?_, rfl⟩
    simp only [finalize, List.mem_append, hdeg]
    simp

/-! ## C4: a university absent from every document -/

/-- The token-majority matching rule as worded by the claim: at least half
of the tokens of length above two occur in the text.  (The source divides by
the count of ALL tokens instead; failing this spec-side test is the stronger
hypothesis, see `specTokenMajority_false_code_false`.) -/
def specTokenMajority (value text : String) : Bool :=
  let toks := (pySplitWs value).filter fun t => t.length > 2
  2 * (toks.filter fun t => strIn t text).length ≥ toks.length

/-- Filtering on a conjunction equals filtering twice. -/
lemma filter_and_eq (l : List String) (text : String) :
    (l.filter fun t => decide (t.length > 2) && strIn t text) =
      ((l.filter fun t => decide (t.length > 2)).filter fun t => strIn t text) := by
  induction l with
  | nil => rfl
  | cons hd tl ih =>
    by_cases h1 : hd.length > 2 <;> by_cases h2 : strIn hd text = true <;>
      simp [h1, h2, ih]

/-- When even the spec-side token-majority test fails, the code-side partial
match (which divides by the count of all tokens) fails as well. -/
lemma specTokenMajority_false_code_false (value text : String)
    (hsub : strIn value text = false)
    (htok : specTokenMajority value text = false) :
    universityMatchesDoc value (pySplitWs value) text = false := by
  unfold universityMatchesDoc
  rw [hsub, Bool.false_or, decide_eq_false_iff_not]
  simp only [specTokenMajority, decide_eq_false_iff_not, not_le] at htok
  rw [filter_and_eq]
  intro hge
  have hle := List.length_filter_le (fun t => decide (t.length > 2)) (pySplitWs value)
  omega

/-- Every issue of `majorIssues` is the major mismatch. -/
lemma mem_majorIssues {docs : Docs} {m : String} {i : Issue}
    (h : i ∈ majorIssues docs m) : i = majorMismatchIssue m := by
  unfold majorIssues at h
  split at h
  · cases h
  · split at h
    · cases h
    · simpa using h

/-- Every issue of `degreeIssues` is the degree-level mismatch. -/
lemma mem_degreeIssues {docs : Docs} {dl : String} {i : Issue}
    (h : i ∈ degreeIssues docs dl) : i = degreeMismatchIssue dl := by
  unfold degreeIssues at h
  split at h
  · cases h
  · split at h
    · cases h
    · simpa using h

/-- Every issue of `gradeIssues` is the grade-not-found warning. -/
lemma mem_gradeIssues {docs : Docs} {g : String} {i : Issue}
    (h : i ∈ gradeIssues docs g) : i = gradeNotFoundIssue := by
  unfold gradeIssues at h
  split at h
  · cases h
  · split at h
    · cases h
    · split at h
      · cases h
      · simpa using h

/-- Every issue of `gradYearIssues` concerns the graduation year. -/
lemma mem_gradYearIssues {docs : Docs} {gy : String} {i : Issue}
    (h : i ∈ gradYearIssues docs gy) :
    i = gradYearNotFoundIssue ∨ ∃ s, i = gradYearMismatchIssue gy s := by
  unfold gradYearIssues at h
  split at h
  · cases h
  · split at h
    · cases h
    · split at h
      · split at h
        · left; simpa using h
        · split at h
          · right; exact ⟨_, by simpa using h⟩
          · cases h
      · left; simpa using h

/-- Every issue of a returned `gradSeasonIssues` list concerns the
graduation season. -/
lemma mem_gradSeasonIssues {docs : Docs} {gs : String} {li : List Issue}
    {i : Issue} (hsome : gradSeasonIssues docs gs = some li) (h : i ∈ li) :
    i = gradSeasonNotFoundIssue ∨ ∃ s, i = gradSeasonMismatchIssue gs s := by
  unfold gradSeasonIssues at hsome
  split at hsome
  · cases hsome; cases h
  · split at hsome
    · cases hsome; cases h
    · split at hsome
      · cases hsome
      · split at hsome
        · cases hsome; left; simpa using h
        · split at hsome
          · cases hsome
            right
            exact ⟨_, by simpa using h⟩
          · cases hsome; cases h

/-- C4: if the claimed university (non-empty, lowercased) is neither an
exact substring of any document's lowercased text nor token-majority-matched
in any single document, the academic validator emits exactly one
`university_mismatch` issue, it is critical, and the academic status is
`Failed`. -/
theorem university_absent_unique_critical (docs : Docs) (ad : AcademicData)
    (h1 : ¬ ((lowerStr ad.university).isEmpty = true))
    (h2 : ∀ p ∈ docs,
      strIn (lowerStr ad.university) (lowerStr p.2.text) = false ∧
      specTokenMajority (lowerStr ad.university) (lowerStr p.2.text) = false) :
    (validate_academic_info docs ad).elim True fun r =>
      (r.issues.filter fun i => i.type == "university_mismatch") =
        [universityMismatchIssue (lowerStr ad.university)] ∧
      (universityMismatchIssue (lowerStr ad.university)).severity =
        Severity.critical ∧
      r.status = Status.Failed := by
  have hany : (docs.any fun p =>
      universityMatchesDoc (lowerStr ad.university)
        (pySplitWs (lowerStr ad.university)) (lowerStr p.2.text)) = false := by
    rw [List.any_eq_false]
    intro p hp
    simp only [Bool.not_eq_true]
    exact specTokenMajority_false_code_false _ _ (h2 p hp).1 (h2 p hp).2
  have huni : universityIssues docs (lowerStr ad.university) =
      [universityMismatchIssue (lowerStr ad.university)] := by
    unfold universityIssues
    rw [if_neg h1, if_neg (by rw [hany]; exact Bool.false_ne_true)]
  unfold validate_academic_info
  cases hseason : gradSeasonIssues docs (lowerStr ad.graduation_season) with
  | none => trivial
  | some seasonIssues =>
    have hfilters :
        ((majorIssues docs (lowerStr ad.major) ++
          universityIssues docs (lowerStr ad.university) ++
          degreeIssues docs (lowerStr ad.degree_level) ++
          gradeIssues docs (lowerStr ad.grade) ++
          gradYearIssues docs ad.graduation_year ++
          seasonIssues).filter fun i => i.type == "university_mismatch") =
        [universityMismatchIssue (lowerStr ad.university)] := by
      have hmaj : ((majorIssues docs (lowerStr ad.major)).filter
          fun i => i.type == "university_mismatch") = [] :=
        List.filter_eq_nil_iff.mpr fun i hi => by
          rw [mem_majorIssues hi]; simp [majorMismatchIssue]
      have hdeg : ((degreeIssues docs (lowerStr ad.degree_level)).filter
          fun i => i.type == "university_mismatch") = [] :=
        List.filter_eq_nil_iff.mpr fun i hi => by
          rw [mem_degreeIssues hi]; simp [degreeMismatchIssue]
      have hgr : ((gradeIssues docs (lowerStr ad.grade)).filter
          fun i => i.type == "university_mismatch") = [] :=
        List.filter_eq_nil_iff.mpr fun i hi => by
          rw [mem_gradeIssues hi]; simp [gradeNotFoundIssue]
      have hyear : ((gradYearIssues docs ad.graduation_year).filter
          fun i => i.type == "university_mismatch") = [] :=
        List.filter_eq_nil_iff.mpr fun i hi => by
          rcases mem_gradYearIssues hi with h | ⟨s, h⟩ <;> rw [h] <;>
            simp [gradYearNotFoundIssue, gradYearMismatchIssue]
      have hseas : (seasonIssues.filter
          fun i => i.type == "university_mismatch") = [] :=
        List.filter_eq_nil_iff.mpr fun i hi => by
          rcases mem_gradSeasonIssues hseason hi with h | ⟨s, h⟩ <;> rw [h] <;>
            simp [gradSeasonNotFoundIssue, gradSeasonMismatchIssue]
      have huni' : ((universityIssues docs (lowerStr ad.university)).filter
          fun i => i.type == "university_mismatch") =
          [universityMismatchIssue (lowerStr ad.university)] := by
        rw [huni]
        simp [universityMismatchIssue]
      simp only [List.filter_append, hmaj, hdeg, hgr, hyear, hseas, huni']
      simp
    refine ⟨hfilters, rfl, ?_⟩
    refine ((escalationSpec_deriveStatus _).1).mpr
      ⟨universityMismatchIssue (lowerStr ad.university), ?_, rfl⟩
    simp only [List.mem_append, huni]
    simp

/-- The C4 witness inputs: a claimed university sharing no token with the
only document's text. -/
def docsUniAbsent : Docs := [("transcript", { text := "Some Other School" })]

/-- The C4 witness claim. -/
def adUniClaim : AcademicData := { university := "Harvard University" }

/-- Witness for C4 at a concrete claim and document map. -/
theorem university_absent_unique_critical_witness :
    (validate_academic_info docsUniAbsent adUniClaim).elim True fun r =>
      (r.issues.filter fun i => i.type == "university_mismatch") =
        [universityMismatchIssue (lowerStr adUniClaim.university)] ∧
      (universityMismatchIssue (lowerStr adUniClaim.university)).severity =
        Severity.critical ∧
      r.status = Status.Failed :=
  university_absent_unique_critical docsUniAbsent adUniClaim (by decide)
    (by decide)

/-- The C10 witness claim: a degree level outside the synonym table. -/
def adCertificate : AcademicData := { degree_level := "Certificate" }

/-- Witness for C10 at a concrete claim (with no documents at all, showing
the warning is emitted regardless of documents). -/
theorem unmapped_degree_level_always_warns_witness :
    (validate_academic_info [] adCertificate).elim True fun r =>
      degreeMismatchIssue (lowerStr adCertificate.degree_level) ∈ r.issues ∧
      (degreeMismatchIssue (lowerStr adCertificate.degree_level)).severity =
        Severity.warning :=
  unmapped_degree_level_always_warns [] adCertificate (by decide) (by decide)

/-! ## C7: the `student_id` authenticity checks -/

/-- Membership in a `concatMap`. -/
lemma mem_concatMap {f : α → List β} {l : List α} {b : β} :
    b ∈ concatMap f l ↔ ∃ x ∈ l, b ∈ f x := by
  induction l with
  | nil => simp [concatMap]
  | cons hd tl ih => simp [concatMap, ih]

/-- Filtering distributes over `concatMap`. -/
lemma filter_concatMap (p : β → Bool) (f : α → List β) (l : List α) :
    (concatMap f l).filter p = concatMap (fun x => (f x).filter p) l := by
  induction l with
  | nil => rfl
  | cons hd tl ih => simp [concatMap, List.filter_append, ih]

/-- Every issue the authenticity loop appends for one document carries that
document's type in its `document` field. -/
lemma mem_authIssuesFor_document {dt : String} {d : ExtractedDocument}
    {i : Issue} (h : i ∈ authIssuesFor dt d) : i.document = some dt := by
  unfold authIssuesFor at h
  rcases List.mem_append.mp h with h | h
  · split at h
    · rcases List.mem_append.mp h with h | h <;> split at h <;>
        simp_all [missingHeaderIssue, missingIdNumberIssue]
    · split at h
      · rcases List.mem_append.mp h with h | h
        · rcases List.mem_append.mp h with h | h <;> split at h <;>
            simp_all [missingHeaderIssue, missingCoursesIssue]
        · split at h <;> simp_all [missingGradesIssue]
      · split at h
        · rcases List.mem_append.mp h with h | h <;> split at h <;>
            simp_all [missingLetterheadIssue, missingStatusIssue]
        · split at h
          · rcases List.mem_append.mp h with h | h <;> split at h <;>
              simp_all [missingHeaderIssue, missingSignatureIssue]
          · cases h
  · split at h
    · cases h
    · simp_all [missingDateIssue]

/-- In a document map whose keys avoid `student_id`, no authenticity issue
is tagged with the `student_id` document. -/
lemma filter_auth_no_student_id (tl : Docs)
    (h : "student_id" ∉ tl.map Prod.fst) :
    ((concatMap (fun p => authIssuesFor p.1 p.2) tl).filter
      fun i => i.document == some "student_id") = [] := by
  refine List.filter_eq_nil_iff.mpr fun i hi => ?_
  obtain ⟨p, hp, hip⟩ := mem_concatMap.mp hi
  have hdoc := mem_authIssuesFor_document hip
  have hne : p.1 ≠ "student_id" := fun hc => h (hc ▸ List.mem_map_of_mem Prod.fst hp)
  simp [hdoc, hne, Ne.symm hne]

/-- C7 (amended): a `student_id` document with a falsy `id_number` yields
the critical `missing_id_number` issue; a `student_id` document with truthy
`id_number`, `has_header` AND `has_date` yields zero authenticity issues
tagged with that document. -/
theorem student_id_id_number_checks (docs : Docs) (d : ExtractedDocument)
    (hmem : ("student_id", d) ∈ docs)
    (hnd : (docs.map Prod.fst).Nodup) :
    (d.metadata.id_number.truthy = false →
      missingIdNumberIssue ∈ (validate_document_authenticity docs).issues ∧
      missingIdNumberIssue.severity = Severity.critical) ∧
    (d.metadata.id_number.truthy = true →
      d.metadata.format_markers.has_header = true →
      d.metadata.format_markers.has_date = true →
      ((validate_document_authenticity docs).issues.filter
        fun i => i.document == some "student_id") = []) := by
  constructor
  · intro hfalsy
    refine ⟨?_, rfl⟩
    show missingIdNumberIssue ∈ concatMap (fun p => authIssuesFor p.1 p.2) docs
    refine mem_concatMap.mpr ⟨("student_id", d), hmem, ?_⟩
    simp [authIssuesFor, hfalsy]
  · intro ht hh hd
    have hfor : authIssuesFor "student_id" d = [] := by
      simp [authIssuesFor, ht, hh, hd]
    show ((concatMap (fun p => authIssuesFor p.1 p.2) docs).filter
      fun i => i.document == some "student_id") = []
    induction docs with
    | nil => rfl
    | cons hd' tl ih =>
      rw [List.map_cons, List.nodup_cons] at hnd
      rw [show concatMap (fun p => authIssuesFor p.1 p.2) (hd' :: tl) =
        authIssuesFor hd'.1 hd'.2 ++
          concatMap (fun p => authIssuesFor p.1 p.2) tl from rfl]
      rw [List.filter_append]
      rcases List.mem_cons.mp hmem with heq | hmemtl
      · have h1 : hd'.1 = "student_id" := by rw [← heq]
        have h2 : hd'.2 = d := by rw [← heq]
        rw [h1, h2, hfor]
        have hnotin : "student_id" ∉ tl.map Prod.fst := h1 ▸ hnd.1
        rw [filter_auth_no_student_id tl hnotin]
        rfl
      · have hne : hd'.1 ≠ "student_id" := by
          intro hc
          exact hnd.1 (hc ▸ List.mem_map_of_mem Prod.fst hmemtl)
        have hhead : ((authIssuesFor hd'.1 hd'.2).filter
            fun i => i.document == some "student_id") = [] := by
          refine List.filter_eq_nil_iff.mpr fun i hi => ?_
          have hdoc := mem_authIssuesFor_document hi
          simp [hdoc, hne, Ne.symm hne]
        rw [hhead, ih hmemtl hnd.2]
        rfl

/-- The C7 counterexample document: truthy `id_number`, `has_header` set,
but no `has_date` marker. -/
def dIdNoDate : ExtractedDocument :=
  { metadata := { id_number := .str "12345",
                  format_markers := { has_header := true } } }

/-- The C7 counterexample document map. -/
def docsIdNoDate : Docs := [("student_id", dIdNoDate)]

/-- Counterexample to C7 as stated: a `student_id` document with non-empty
`id_number` and `has_header = true` nonetheless yields an authenticity issue
for that document — the common `missing_date` warning. -/
theorem student_id_zero_issues_counterexample :
    dIdNoDate.metadata.id_number.truthy = true ∧
    dIdNoDate.metadata.format_markers.has_header = true ∧
    ((validate_document_authenticity docsIdNoDate).issues.filter
        fun i => i.document == some "student_id") =
      [missingDateIssue "student_id"] ∧
    ((validate_document_authenticity docsIdNoDate).issues.filter
        fun i => i.document == some "student_id") ≠ [] := by
  refine ⟨rfl, rfl, by decide, by decide⟩

/-- Witness for C7 (amended): with `id_number` falsy the critical issue
appears; with `id_number`, `has_header` and `has_date` all set, no issue is
tagged with the document. -/
theorem student_id_id_number_checks_witness :
    (missingIdNumberIssue ∈
        (validate_document_authenticity
          [("student_id", { metadata := { id_number := .str "" } })]).issues ∧
      missingIdNumberIssue.severity = Severity.critical) ∧
    ((validate_document_authenticity
        [("student_id",
          { metadata := { id_number := .str "12345",
                          format_markers :=
                            { has_header := true, has_date := true } } })]).issues.filter
      fun i => i.document == some "student_id") = [] := by
  constructor
  · exact (student_id_id_number_checks
      [("student_id", { metadata := { id_number := .str "" } })]
      { metadata := { id_number := .str "" } }
      (by decide) (by decide)).1 (by decide)
  · exact (student_id_id_number_checks
      [("student_id",
        { metadata := { id_number := .str "12345",
                        format_markers :=
                          { has_header := true, has_date := true } } })]
      { metadata := { id_number := .str "12345",
                      format_markers :=
                        { has_header := true, has_date := true } } }
      (by decide) (by decide)).2 (by decide) (by decide) (by decide)

/-! ## C5: the per-document name test -/

/-- Every issue of the name loop is a `name_mismatch` for the document it
was appended for. -/
lemma mem_nameIssues {docs : Docs} {fn : String} {i : Issue}
    (h : i ∈ nameIssues docs fn) :
    ∃ p ∈ docs, i = nameMismatchIssue fn p.1 := by
  obtain ⟨p, hp, hfp⟩ := List.mem_filterMap.mp h
  refine ⟨p, hp, ?_⟩
  by_cases hcm : codeNameMatches fn (lowerStr p.2.text) = true
  · simp [hcm] at hfp
  · simp only [Bool.not_eq_true] at hcm
    simp [hcm] at hfp
    exact hfp.symm

/-- In a document map whose keys avoid `dt`, no name issue is tagged with
document `dt`. -/
lemma filter_nameIssues_no_dt (tl : Docs) (fn dt : String)
    (h : dt ∉ tl.map Prod.fst) :
    ((nameIssues tl fn).filter
      fun i => i.type == "name_mismatch" && i.document == some dt) = [] := by
  refine List.filter_eq_nil_iff.mpr fun i hi => ?_
  obtain ⟨p, hp, heq⟩ := mem_nameIssues hi
  have hne : p.1 ≠ dt := fun hc => h (hc ▸ List.mem_map_of_mem Prod.fst hp)
  simp [heq, nameMismatchIssue, hne]

/-- The name issues tagged with the document `dt` are exactly the outcome of
the per-document test on `dt`'s own text. -/
lemma filter_nameIssues (docs : Docs) (fn dt : String) (d : ExtractedDocument)
    (hmem : (dt, d) ∈ docs) (hnd : (docs.map Prod.fst).Nodup) :
    ((nameIssues docs fn).filter
        fun i => i.type == "name_mismatch" && i.document == some dt) =
      if codeNameMatches fn (lowerStr d.text) then []
      else [nameMismatchIssue fn dt] := by
  induction docs with
  | nil => cases hmem
  | cons hd' tl ih =>
    rw [List.map_cons, List.nodup_cons] at hnd
    rcases List.mem_cons.mp hmem with heq | hmemtl
    · have h1 : hd'.1 = dt := by rw [← heq]
      have h2 : hd'.2 = d := by rw [← heq]
      have hnotin : dt ∉ tl.map Prod.fst := h1 ▸ hnd.1
      by_cases hcm : codeNameMatches fn (lowerStr d.text) = true
      · rw [if_pos hcm]
        rw [show nameIssues (hd' :: tl) fn = nameIssues tl fn by
          simp [nameIssues, List.filterMap_cons, h1, h2, hcm]]
        exact filter_nameIssues_no_dt tl fn dt hnotin
      · simp only [Bool.not_eq_true] at hcm
        rw [if_neg (by simp [hcm])]
        rw [show nameIssues (hd' :: tl) fn =
            nameMismatchIssue fn dt :: nameIssues tl fn by
          simp [nameIssues, List.filterMap_cons, h1, h2, hcm]]
        rw [List.filter_cons_of_pos (by simp [nameMismatchIssue])]
        rw [filter_nameIssues_no_dt tl fn dt hnotin]
    · have hne : hd'.1 ≠ dt := by
        intro hc
        exact hnd.1 (hc ▸ List.mem_map_of_mem Prod.fst hmemtl)
      have hstep : ((nameIssues (hd' :: tl) fn).filter
          fun i => i.type == "name_mismatch" && i.document == some dt) =
          ((nameIssues tl fn).filter
            fun i => i.type == "name_mismatch" && i.document == some dt) := by
        simp only [nameIssues, List.filterMap_cons]
        by_cases hcm : codeNameMatches fn (lowerStr hd'.2.text) = true
        · simp [hcm]
        · simp only [Bool.not_eq_true] at hcm
          simp only [hcm, Bool.false_eq_true, if_false]
          rw [List.filter_cons_of_neg (by simp [nameMismatchIssue, hne])]
      rw [hstep]
      exact ih hmemtl hnd.2

/-- The only issue the date-of-birth block can append is the claim-wide
`dob_mismatch`. -/
lemma mem_dobIssues {docs : Docs} {dob : String} {i : Issue}
    (h : i ∈ dobIssues docs dob) : i = dobMismatchIssue := by
  unfold dobIssues at h
  split at h
  · cases h
  · split at h
    · cases h
    · split at h
      · cases h
      · simpa using h

/-- The only issue a field check can append is that field's mismatch. -/
lemma mem_checkField {docs : Docs} {f v : String} {i : Issue}
    (h : i ∈ checkField docs f v) : i = fieldMismatchIssue f := by
  unfold checkField at h
  split at h
  · cases h
  · split at h
    · cases h
    · simpa using h

/-- C5 (amended): for every document, independently, the source counts how
many name tokens of length above two occur in the document's lowercased text
and compares TWICE that count against the number of ALL tokens (short tokens
included in the denominator, ties matching); each document failing that test
yields exactly one warning `name_mismatch` scoped to it, and a passing
document yields none. -/
theorem name_mismatch_per_document (docs : Docs) (pd : PersonalData)
    (hnd : (docs.map Prod.fst).Nodup) (dt : String) (d : ExtractedDocument)
    (hmem : (dt, d) ∈ docs) (_hname : pd.name ≠ "") :
    ((validate_personal_info docs pd).issues.filter
        fun i => i.type == "name_mismatch" && i.document == some dt) =
      (if codeNameMatches (lowerStr pd.name) (lowerStr d.text) then []
       else [nameMismatchIssue (lowerStr pd.name) dt]) ∧
    (nameMismatchIssue (lowerStr pd.name) dt).severity = Severity.warning := by
  refine ⟨?_, rfl⟩
  show ((nameIssues docs (lowerStr pd.name) ++ dobIssues docs pd.dob ++
      checkField docs "citizenship" pd.citizenship ++
      checkField docs "address" pd.address ++
      checkField docs "gender" pd.gender).filter
        fun i => i.type == "name_mismatch" && i.document == some dt) = _
  have hdob : ((dobIssues docs pd.dob).filter
      fun i => i.type == "name_mismatch" && i.document == some dt) = [] :=
    List.filter_eq_nil_iff.mpr fun i hi => by
      rw [mem_dobIssues hi]; simp [dobMismatchIssue]
  have hcit : ((checkField docs "citizenship" pd.citizenship).filter
      fun i => i.type == "name_mismatch" && i.document == some dt) = [] :=
    List.filter_eq_nil_iff.mpr fun i hi => by
      rw [mem_checkField hi]; simp [fieldMismatchIssue]
  have haddr : ((checkField docs "address" pd.address).filter
      fun i => i.type == "name_mismatch" && i.document == some dt) = [] :=
    List.filter_eq_nil_iff.mpr fun i hi => by
      rw [mem_checkField hi]; simp [fieldMismatchIssue]
  have hgen : ((checkField docs "gender" pd.gender).filter
      fun i => i.type == "name_mismatch" && i.document == some dt) = [] :=
    List.filter_eq_nil_iff.mpr fun i hi => by
      rw [mem_checkField hi]; simp [fieldMismatchIssue]
  simp only [List.filter_append, hdob, hcit, haddr, hgen, List.append_nil]
  exact filter_nameIssues docs (lowerStr pd.name) dt d hmem hnd

/-- The C5 counterexample claim: a name with two short tokens and one long
token. -/
def pdShortName : PersonalData := { name := "A de Xyz" }

/-- The C5 counterexample document: its text contains the long token. -/
def dXyz : ExtractedDocument := { text := "xyz record" }

/-- The C5 counterexample document map. -/
def docsShortName : Docs := [("student_id", dXyz)]

/-- Counterexample to C5 as stated: the claim's test (at least half of the
NON-TRIVIAL tokens found — here one of one) succeeds on this document, yet
the source, which divides by the count of all three tokens, emits a
`name_mismatch` for it. -/
theorem name_threshold_counterexample :
    specTokenMajority (lowerStr pdShortName.name) (lowerStr dXyz.text) = true ∧
    ((validate_personal_info docsShortName pdShortName).issues.filter
        fun i => i.type == "name_mismatch" && i.document == some "student_id") =
      [nameMismatchIssue "a de xyz" "student_id"] :=
  ⟨by decide, by decide⟩

/-- The C5 witness documents: one matching, one failing document. -/
def docsNamePair : Docs :=
  [("student_id", { text := "card of john smith" }),
   ("transcript", { text := "nothing relevant" })]

/-- The C5 witness claim. -/
def pdJohn : PersonalData := { name := "John Smith" }

/-- Witness for C5 (amended), exercising both a passing and a failing
document of the same map. -/
theorem name_mismatch_per_document_witness :
    (((validate_personal_info docsNamePair pdJohn).issues.filter
        fun i => i.type == "name_mismatch" && i.document == some "student_id") =
      (if codeNameMatches (lowerStr pdJohn.name)
          (lowerStr ({ text := "card of john smith" } : ExtractedDocument).text)
        then []
        else [nameMismatchIssue (lowerStr pdJohn.name) "student_id"]) ∧
      (nameMismatchIssue (lowerStr pdJohn.name) "student_id").severity =
        Severity.warning) ∧
    (((validate_personal_info docsNamePair pdJohn).issues.filter
        fun i => i.type == "name_mismatch" && i.document == some "transcript") =
      (if codeNameMatches (lowerStr pdJohn.name)
          (lowerStr ({ text := "nothing relevant" } : ExtractedDocument).text)
        then []
        else [nameMismatchIssue (lowerStr pdJohn.name) "transcript"]) ∧
      (nameMismatchIssue (lowerStr pdJohn.name) "transcript").severity =
        Severity.warning) :=
  ⟨name_mismatch_per_document docsNamePair pdJohn (by decide) "student_id"
      { text := "card of john smith" } (by decide) (by decide),
    name_mismatch_per_document docsNamePair pdJohn (by decide) "transcript"
      { text := "nothing relevant" } (by decide) (by decide)⟩

/-! ## C9: the cross-document name comparison -/

/-- Every issue of the timeline block is a `future_date`. -/
lemma mem_futureIssues {docs : Docs} {now : Ymd} {i : Issue}
    (h : i ∈ futureIssues docs now) : ∃ dt ds, i = futureDateIssue dt ds := by
  unfold futureIssues at h
  split at h
  · cases h
  · obtain ⟨p, _, hip⟩ := mem_concatMap.mp h
    obtain ⟨ds, _, hds⟩ := List.mem_filterMap.mp hip
    refine ⟨p.1, ds, ?_⟩
    rcases hparse : strptime6 ds with _ | d <;> rw [hparse] at hds <;>
      dsimp only at hds
    · cases hds
    · split at hds
      · simp only [Option.some.injEq] at hds
        exact hds.symm
      · cases hds

/-- C9: when the name extraction yields a reference name and a non-empty
rest, the `name_inconsistency` issues of the cross-document validator are
exactly one critical issue per later document whose lowercased name has a
similarity ratio strictly below 0.7 against the lowercased FIRST name (the
fixed reference), each issue listing both document types; later documents
with ratio at least 0.7 contribute nothing. -/
theorem crossdoc_name_fixed_reference (docs : Docs) (now : Ymd)
    (ref_doc ref_name : String) (rest : List (String × String))
    (h : namesByDoc docs = (ref_doc, ref_name) :: rest) (hr : rest ≠ []) :
    ((validate_cross_document_consistency docs now).issues.filter
        fun i => i.type == "name_inconsistency") =
      rest.filterMap (fun p =>
        if simBelow07 (lowerStr ref_name) (lowerStr p.2) then
          some (nameInconsistencyIssue ref_doc p.1 ref_name p.2)
        else none) ∧
    ∀ dt n, (nameInconsistencyIssue ref_doc dt ref_name n).severity =
        Severity.critical ∧
      (nameInconsistencyIssue ref_doc dt ref_name n).documents = [ref_doc, dt] := by
  refine ⟨?_, fun dt n => ⟨rfl, rfl⟩⟩
  have hlen : ¬ docs.length < 2 := by
    have h1 : (namesByDoc docs).length ≤ docs.length :=
      List.length_filterMap_le _ _
    rw [h] at h1
    have h2 : 0 < rest.length := List.length_pos.mpr hr
    simp only [List.length_cons] at h1
    omega
  have hninc : nameIncIssues docs =
      rest.filterMap (fun p =>
        if simBelow07 (lowerStr ref_name) (lowerStr p.2) then
          some (nameInconsistencyIssue ref_doc p.1 ref_name p.2)
        else none) := by
    unfold nameIncIssues
    rw [h]
    show (if rest.isEmpty = true then []
      else rest.filterMap fun p =>
        if simBelow07 (lowerStr ref_name) (lowerStr p.2) then
          some (nameInconsistencyIssue ref_doc p.1 ref_name p.2)
        else none) = _
    rw [if_neg (by simp [hr])]
  have hfut : ((futureIssues docs now).filter
      fun i => i.type == "name_inconsistency") = [] :=
    List.filter_eq_nil_iff.mpr fun i hi => by
      obtain ⟨dt, ds, hds⟩ := mem_futureIssues hi
      simp [hds, futureDateIssue]
  have hself : ((nameIncIssues docs).filter
      fun i => i.type == "name_inconsistency") = nameIncIssues docs := by
    refine List.filter_eq_self.mpr fun i hi => ?_
    rw [hninc] at hi
    obtain ⟨p, _, hp⟩ := List.mem_filterMap.mp hi
    split at hp
    · simp only [Option.some.injEq] at hp
      simp [← hp, nameInconsistencyIssue]
    · cases hp
  show (((if docs.length < 2 then
      ({ issues := [], status := .Passed } : CategoryResult)
    else finalize (nameIncIssues docs ++ futureIssues docs now)).issues).filter
      fun i => i.type == "name_inconsistency") = _
  rw [if_neg hlen]
  show ((nameIncIssues docs ++ futureIssues docs now).filter
      fun i => i.type == "name_inconsistency") = _
  rw [List.filter_append, hfut, List.append_nil, hself, hninc]

/-- The C9 witness documents: extracted names `John Smith` (the reference),
`Jon Smyth` (similar) and `Maria Garcia` (dissimilar). -/
def docsThreeNames : Docs :=
  [("student_id", { person_entities := ["John Smith"] }),
   ("transcript", { person_entities := ["Jon Smyth"] }),
   ("union_letter", { person_entities := ["Maria Garcia"] })]

set_option maxRecDepth 40000 in
/-- Witness for C9: the similar name produces no issue, the dissimilar one
produces exactly the critical issue listing both document types. -/
theorem crossdoc_name_fixed_reference_witness :
    (((validate_cross_document_consistency docsThreeNames ⟨2025, 10, 12⟩).issues.filter
        fun i => i.type == "name_inconsistency") =
      [("transcript", "Jon Smyth"), ("union_letter", "Maria Garcia")].filterMap
        (fun p =>
          if simBelow07 (lowerStr "John Smith") (lowerStr p.2) then
            some (nameInconsistencyIssue "student_id" p.1 "John Smith" p.2)
          else none) ∧
      ∀ dt n, (nameInconsistencyIssue "student_id" dt "John Smith" n).severity =
          Severity.critical ∧
        (nameInconsistencyIssue "student_id" dt "John Smith" n).documents =
          ["student_id", dt]) ∧
    simBelow07 (lowerStr "John Smith") (lowerStr "Jon Smyth") = false ∧
    simBelow07 (lowerStr "John Smith") (lowerStr "Maria Garcia") = true :=
  ⟨crossdoc_name_fixed_reference docsThreeNames ⟨2025, 10, 12⟩ "student_id"
      "John Smith" [("transcript", "Jon Smyth"), ("union_letter", "Maria Garcia")]
      (by decide) (by decide),
    by decide, by decide⟩

/-! ## C6: determinism and the hidden clock -/

/-- Do two clock readings classify one extracted date string identically on
the future-date test? -/
def timeAgrees (now1 now2 : Ymd) (ds : String) : Bool :=
  match strptime6 ds with
  | some d => now1.isBefore d == now2.isBefore d
  | none => true

/-- `concatMap` only depends on the function's values on the list. -/
lemma concatMap_congr {f g : α → List β} {l : List α}
    (h : ∀ x ∈ l, f x = g x) : concatMap f l = concatMap g l := by
  induction l with
  | nil => rfl
  | cons hd tl ih =>
    simp only [concatMap, h hd (by simp)]
    rw [ih fun x hx => h x (by simp [hx])]

/-- `filterMap` only depends on the function's values on the list. -/
lemma filterMap_congr_on {f g : α → Option β} {l : List α}
    (h : ∀ x ∈ l, f x = g x) : l.filterMap f = l.filterMap g := by
  induction l with
  | nil => rfl
  | cons hd tl ih =>
    simp only [List.filterMap_cons, h hd (by simp)]
    rw [ih fun x hx => h x (by simp [hx])]

/-- C6 (amended): `validate_documents` is a pure function of its inputs AND
the current clock date: two evaluations agree whenever the two clock dates
classify every extracted document date identically on the future-date test
(in particular, always, when the clock is held fixed).  The clock enters
only through the `future_date` check. -/
theorem validate_documents_time_dependence (docs : Docs) (pd : PersonalData)
    (ad : AcademicData) (now1 now2 : Ymd)
    (h : ∀ p ∈ datesByDoc docs, ∀ ds ∈ p.2, timeAgrees now1 now2 ds = true) :
    validate_documents docs pd ad now1 = validate_documents docs pd ad now2 := by
  have hfut : futureIssues docs now1 = futureIssues docs now2 := by
    unfold futureIssues
    by_cases hlen : (datesByDoc docs).length < 2
    · rw [if_pos hlen, if_pos hlen]
    · rw [if_neg hlen, if_neg hlen]
      refine concatMap_congr fun p hp => ?_
      refine filterMap_congr_on fun ds hds => ?_
      have hag := h p hp ds hds
      unfold timeAgrees at hag
      cases hparse : strptime6 ds with
      | none => simp [hparse]
      | some d =>
        rw [hparse] at hag
        have hb : now1.isBefore d = now2.isBefore d := eq_of_beq hag
        simp [hparse, hb]
  unfold validate_documents validate_cross_document_consistency
  cases validate_academic_info docs ad <;> simp [hfut]

/-- The C6 counterexample documents: two documents with extracted dates, one
of them dated 01/01/2030. -/
def docsTwoDates : Docs :=
  [("student_id", { text := "issued 01/01/2030" }),
   ("transcript", { text := "issued 05/05/2020" })]

/-- Counterexample to C6 as stated: the same claim and document map evaluated
at two different clock dates (2025 and 2031) produce different reports, so
`validate_documents` does depend on the hidden current time. -/
theorem validate_documents_clock_counterexample :
    validate_documents docsTwoDates pdEmpty {} ⟨2025, 1, 1⟩ ≠
      validate_documents docsTwoDates pdEmpty {} ⟨2031, 1, 1⟩ := by
  decide

/-- Witness for C6 (amended) at two distinct clock dates that agree on every
extracted date. -/
theorem validate_documents_time_dependence_witness :
    (∀ p ∈ datesByDoc docsTwoDates, ∀ ds ∈ p.2,
      timeAgrees ⟨2031, 1, 1⟩ ⟨2032, 1, 1⟩ ds = true) ∧
    validate_documents docsTwoDates pdEmpty {} ⟨2031, 1, 1⟩ =
      validate_documents docsTwoDates pdEmpty {} ⟨2032, 1, 1⟩ :=
  ⟨by decide,
    validate_documents_time_dependence docsTwoDates pdEmpty {} ⟨2031, 1, 1⟩
      ⟨2032, 1, 1⟩ (by decide)⟩

end DocCheck
